import Mathlib

/-!
Shallow embedding of the vendor chat route (`app/api/chat/route.ts`) of the
Vivaah.AI repository: the intent classifier predicates, the parameter
parsers (`parseBudget`, `parseCategory`), the vector-result normalizer, the
merge / budget-filter / shortlist pipeline of the generic vendor-search
flow, and the stream-termination discipline of the vendor-mode executor.

Strings are modelled as Lean `String`s; JavaScript numbers as exact
rationals (`ℚ`); absent / `undefined` / `null` numeric or string fields as
`Option`; JS regular-expression tests over the lowercased text as explicit
word-boundary substring searches over the character list.
-/

namespace Vivaah

/-! ## Character-level utilities (models of JS string / regex primitives) -/

/-- ASCII lower-casing of one character, as `String.prototype.toLowerCase`
acts on the ASCII letters appearing in the route's keyword lists. -/
def lowerChar (c : Char) : Char :=
  if 'A' ≤ c ∧ c ≤ 'Z' then Char.ofNat (c.toNat + 32) else c

/-- Model of `text.toLowerCase()` as a character list. -/
def toLowerChars (s : String) : List Char := s.data.map lowerChar

/-- JS regex `\d`. -/
def isDigitChar (c : Char) : Bool := '0' ≤ c && c ≤ '9'

/-- JS regex `\w` (`[A-Za-z0-9_]`), used by the `\b` word-boundary. -/
def isWordChar (c : Char) : Bool := c.isAlphanum || c = '_'

/-- JS regex `\s` for the whitespace characters relevant here. -/
def isSpaceChar (c : Char) : Bool :=
  c = ' ' || c = '\t' || c = '\n' || c = '\r'

/-- Strip `pat` from the front of `cs`, returning the remainder when `pat`
is a prefix of `cs`. -/
def stripPrefixChars : List Char → List Char → Option (List Char)
  | [], cs => some cs
  | _ :: _, [] => none
  | p :: ps, c :: cs => if p = c then stripPrefixChars ps cs else none

/-- A `\b` to the left of a pattern that starts with a word character:
satisfied at the start of the text or after a non-word character. -/
def leftBoundaryOk (lb : Bool) (prev : Option Char) : Bool :=
  !lb || (match prev with
          | none => true
          | some c => !isWordChar c)

/-- A `\b` to the right of a pattern that ends with a word character:
satisfied at the end of the text or before a non-word character. -/
def rightBoundaryOk (rb : Bool) (rest : List Char) : Bool :=
  !rb || (match rest with
          | [] => true
          | c :: _ => !isWordChar c)

/-- Does `pat` match at the head of `cs`, with a right word-boundary
requirement when `rb` is set? -/
def matchesHere (cs pat : List Char) (rb : Bool) : Bool :=
  match stripPrefixChars pat cs with
  | none => false
  | some rest => rightBoundaryOk rb rest

/-- Search `cs` for an occurrence of `pat`, requiring a left word boundary
when `lb` and a right word boundary when `rb`; `prev` is the character just
before the current position. This models `regex.test` for the alternation-
free fragments used in the route. -/
def hasMatchAux (pat : List Char) (lb rb : Bool) :
    Option Char → List Char → Bool
  | prev, cs =>
    (leftBoundaryOk lb prev && matchesHere cs pat rb) ||
      (match cs with
       | [] => false
       | c :: rest => hasMatchAux pat lb rb (some c) rest)

/-- Model of a case-insensitive `regex.test(s)` for one literal
alternative: the text is
lowercased and searched for the (lowercase) literal `pat`. -/
def testPat (s : String) (pat : String) (lb rb : Bool) : Bool :=
  hasMatchAux pat.data lb rb none (toLowerChars s)

/-- Model of `haystack.includes(needle)` on lowercased text (plain
substring). -/
def containsSub (hay : List Char) (needle : List Char) : Bool :=
  hasMatchAux needle false false none hay

/-! ## Intent classifier predicates (route.ts lines 104–129) -/

/-- Predicate `isGuideQuery` (route.ts 124–129):
`/\b(guide|best|top|recommend|who should i|find me|best caterers|top caterers|guide to)\b/`
on the lowercased text, AND `/\bcaterer|caterers|vendors|venues\b/`
(note: in the second regex only the first alternative carries the left
boundary and only the last carries the right boundary). -/
def isGuideQuery (t : String) : Bool :=
  (["guide", "best", "top", "recommend", "who should i", "find me",
    "best caterers", "top caterers", "guide to"].any
      (fun p => testPat t p true true)) &&
  (testPat t "caterer" true false || testPat t "caterers" false false ||
    testPat t "vendors" false false || testPat t "venues" false true)

/-- Predicate `isMoreDetailsQuery` (route.ts 104–107):
`/\bmore details on\b|\bdetails on\b|\btell me more about\b/i`. -/
def isMoreDetailsQuery (t : String) : Bool :=
  testPat t "more details on" true true || testPat t "details on" true true ||
    testPat t "tell me more about" true true

/-- Predicate `isReviewsQuery` (route.ts 114–117):
`/\breviews\b|\bratings\b|\bfeedback\b/i`. -/
def isReviewsQuery (t : String) : Bool :=
  testPat t "reviews" true true || testPat t "ratings" true true ||
    testPat t "feedback" true true

/-- The vendor sub-intents of the vendor-mode executor. -/
inductive VendorIntent where
  | guide
  | moreDetails
  | reviews
  | genericSearch
deriving DecidableEq, Repr

/-- The dispatch order of the vendor-mode executor (route.ts 252, 340, 423,
491): guide, then more-details, then reviews, then generic semantic search;
the first predicate that holds wins. -/
def dispatchVendorIntent (t : String) : VendorIntent :=
  if isGuideQuery t then .guide
  else if isMoreDetailsQuery t then .moreDetails
  else if isReviewsQuery t then .reviews
  else .genericSearch

/-! ## Parameter parser (route.ts lines 81–102) -/

/-- Suffix of the text starting at its first decimal digit (where the JS
regex `/(\d[\d,.]*)\s*(unit)?/i` finds its first match), or `none` when the
text has no digit (the regex fails and `parseBudget` returns `null`). -/
def splitAtFirstDigit : List Char → Option (List Char)
  | [] => none
  | c :: cs => if isDigitChar c then some (c :: cs) else splitAtFirstDigit cs

/-- Character class `[\d,.]` of the numeric-token group. -/
def isNumTokChar (c : Char) : Bool := isDigitChar c || c = ',' || c = '.'

/-- The ordered unit alternatives of the budget regex
`(lakh|lakhs|lacs|l|₹|rs|rupees|rupee|inr)`. -/
def budgetUnits : List String :=
  ["lakh", "lakhs", "lacs", "l", "₹", "rs", "rupees", "rupee", "inr"]

/-- Value of a digit run as a natural number. -/
def digitsToNat (ds : List Char) : Nat :=
  ds.foldl (fun n c => n * 10 + (c.toNat - 48)) 0

/-- Model of `Number(nRaw)` for a comma-free token that starts with a
digit and contains at most one `.`: the exact rational the decimal
notation denotes — digits of the integer and fractional parts
concatenated, over `10 ^ (fractional length)`. -/
def ratOfToken (ds : List Char) : ℚ :=
  let ip := ds.takeWhile (fun c => c ≠ '.')
  let fp := (ds.dropWhile (fun c => c ≠ '.')).drop 1
  mkRat (digitsToNat (ip ++ fp)) (10 ^ fp.length)

/-- Model of `Math.round(x)`, which is `⌊x + 1/2⌋`: for `x = n/d` with
`d > 0` this is the floor division `(2n + d) / (2d)`. -/
def jsRound (q : ℚ) : ℚ :=
  (((2 * q.num + (q.den : ℤ)).fdiv (2 * (q.den : ℤ))) : ℤ)

/-- Model of the JS multiplication `n * 100000` of the lakh branch. -/
def lakhScale (q : ℚ) : ℚ := mkRat (q.num * 100000) q.den

/-- Parser `parseBudget` (route.ts 81–95). The regex
`/(\d[\d,.]*)\s*(lakh|lakhs|lacs|l|₹|rs|rupees|rupee|inr)?/i` is modelled
literally: the first digit starts the match, the numeric group is the
maximal run of `[\d,.]`, whitespace is skipped, and the optional unit is
the first alternative (in regex order) prefixing the remainder. Commas are
stripped from the token; a token whose comma-free form still holds two or
more dots makes `Number` return `NaN`, so the function yields `none`; a
lakh-family unit multiplies by 100000 and rounds. -/
def parseBudget (t : String) : Option ℚ :=
  match splitAtFirstDigit (toLowerChars t) with
  | none => none
  | some suf =>
    let tok := suf.takeWhile isNumTokChar
    let rest := (suf.dropWhile isNumTokChar).dropWhile isSpaceChar
    let unit :=
      (budgetUnits.find? (fun u => (stripPrefixChars u.data rest).isSome)).getD ""
    let nRaw := tok.filter (fun c => c ≠ ',')
    if 2 ≤ (nRaw.filter (fun c => c = '.')).length then none
    else
      let q := ratOfToken nRaw
      if containsSub unit.data "lakh".data || unit = "l" ||
          containsSub unit.data "lacs".data then
        some (jsRound (lakhScale q))
      else some q

/-- Does the text contain a decimal digit (so the budget regex matches)?
Stated over the lowercased character list `parseBudget` scans; lower-casing
maps no character to or from a digit. -/
def hasDigit (t : String) : Bool := (toLowerChars t).any isDigitChar

/-- The comma-free form of the first numeric token of the text (empty when
there is no digit); `parseBudget` fails exactly when this holds two or
more dots. -/
def firstNumTokenNoCommas (t : String) : List Char :=
  (((splitAtFirstDigit (toLowerChars t)).getD []).takeWhile isNumTokChar).filter
    (fun c => c ≠ ',')

/-- The ordered category keyword list of `parseCategory` (route.ts 99). -/
def categoryKeywords : List String :=
  ["caterer", "caterers", "decorator", "decorators", "venue", "venues",
   "photographer", "photographers", "dj", "makeup"]

/-- Model of `c.replace(/s$/, "")`: drop one trailing `s`. -/
def stripTrailingS (s : String) : String :=
  match s.data.getLast? with
  | some 's' => String.mk s.data.dropLast
  | _ => s

/-- Parser `parseCategory` (route.ts 97–102): the first keyword (in list order)
contained in the lowercased text, singularized. -/
def parseCategory (t : String) : Option String :=
  (categoryKeywords.find? (fun c => containsSub (toLowerChars t) c.data)).map
    stripTrailingS

/-! ## Generic-search specificity gate (route.ts lines 493–506) -/

/-- The fixed neighbourhood regex of the specificity test (route.ts 495):
`/\b(powai|bandra|andheri|khar|juhu|thane|navi mumbai|lower parel|colaba|churchgate)\b/i`. -/
def hasNeighbourhood (t : String) : Bool :=
  ["powai", "bandra", "andheri", "khar", "juhu", "thane", "navi mumbai",
   "lower parel", "colaba", "churchgate"].any (fun p => testPat t p true true)

/-- JS truthiness of a number-or-null value (`0` and `null` are falsy). -/
def jsTruthyNum (o : Option ℚ) : Bool :=
  match o with
  | some q => q ≠ 0
  | none => false

/-- JS truthiness of a string-or-null value (`""` and `null` are falsy). -/
def jsTruthyStr (o : Option String) : Bool :=
  match o with
  | some s => s ≠ ""
  | none => false

/-- Flag `looksSpecific` (route.ts 495):
`Boolean(budgetVal || categoryVal || neighbourhood-regex)`. -/
def looksSpecific (t : String) : Bool :=
  jsTruthyNum (parseBudget t) || jsTruthyStr (parseCategory t) ||
    hasNeighbourhood t

/-- The budget value that reaches the `if (budgetVal)` branch of the
generic search flow (route.ts 562): the parsed budget when truthy,
otherwise `none` (the flow takes the unfiltered branch). -/
def searchBudget (t : String) : Option ℚ :=
  if jsTruthyNum (parseBudget t) then parseBudget t else none

/-! ## Data model of the generic search flow (route.ts lines 519–639)

A normalized vector-search candidate as consumed by the merge loop: the
identifier fields probed by `v.vendor_id || v._id || v.id ||
(v.metadata && (v.metadata.vendor_id || v.metadata.id))`, the score fields
probed by `v._score ?? v.score ?? v.similarity`, and the price fields the
budget filter reads. `scoreU` stands for the `_score` field and `idU` for
the `_id` field. Fields of candidates without a relational match are the
candidate's own display fields (for a candidate carrying a `metadata`
object the route spreads that object; its price fields are the effective
display fields modelled here). All fields are optional numeric/string
values; a present non-numeric DB value is outside this model. -/
structure Candidate where
  vendor_id : Option String := none
  idU : Option String := none
  id : Option String := none
  hasMeta : Bool := false
  metaVendorId : Option String := none
  metaId : Option String := none
  scoreU : Option ℚ := none
  score : Option ℚ := none
  similarity : Option ℚ := none
  price_min : Option ℚ := none
  price_max : Option ℚ := none
  min_price : Option ℚ := none
  max_price : Option ℚ := none
  price_from : Option ℚ := none
  price_to : Option ℚ := none
deriving DecidableEq, Repr

/-- A relational `vendors` row as read by the merge and the budget filter. -/
structure Row where
  id : String
  name : Option String := none
  price_min : Option ℚ := none
  price_max : Option ℚ := none
  min_price : Option ℚ := none
  max_price : Option ℚ := none
  price_from : Option ℚ := none
  price_to : Option ℚ := none
deriving DecidableEq, Repr

/-- JS `a || b` on string-or-null values: `b` when `a` is null or `""`. -/
def jsOrStr (a b : Option String) : Option String :=
  match a with
  | some s => if s = "" then b else some s
  | none => b

/-- The identifier probe of the merge loop (route.ts 556):
`v.vendor_id || v._id || v.id || (v.metadata && (v.metadata.vendor_id || v.metadata.id))`. -/
def candJsId (c : Candidate) : Option String :=
  jsOrStr c.vendor_id (jsOrStr c.idU (jsOrStr c.id
    (if c.hasMeta then jsOrStr c.metaVendorId c.metaId else none)))

/-- The identifier when it is truthy (the `if (id && idToRow[id])` guard). -/
def truthyId (c : Candidate) : Option String :=
  match candJsId c with
  | some s => if s = "" then none else some s
  | none => none

/-- Score probe `v._score ?? v.score ?? v.similarity` (route.ts 557). -/
def candScore (c : Candidate) : Option ℚ :=
  c.scoreU <|> c.score <|> c.similarity

/-- One merged entry (route.ts 557–558): the relational row's fields
overlaid with the candidate's score, or the candidate's own fields when no
relational row matched. -/
inductive MergedHit where
  | fromRow (r : Row) (s : Option ℚ)
  | fromCandidate (c : Candidate)
deriving DecidableEq, Repr

/-- The `idToRow` map (route.ts 552–553), built by
`for (const r of dbRows) idToRow[r.id] = r` — a later row with the same id
overwrites an earlier one. -/
def idToRowGet (rows : List Row) (i : String) : Option Row :=
  rows.foldl (fun acc r => if r.id = i then some r else acc) none

/-- The body of the merge loop for one candidate (route.ts 555–559). -/
def mergeEntry (rows : List Row) (c : Candidate) : MergedHit :=
  match truthyId c with
  | some i =>
    match idToRowGet rows i with
    | some r => .fromRow r (candScore c)
    | none => .fromCandidate c
  | none => .fromCandidate c

/-- The merge loop (route.ts 554–559): walk the vector list in rank order,
pushing one merged entry per candidate. -/
def merge (cands : List Candidate) (rows : List Row) : List MergedHit :=
  cands.foldl (fun acc v => acc ++ [mergeEntry rows v]) []

/-- The merge plus the pure name-search fallback (route.ts 560):
`if (merged.length === 0 && dbRows.length) merged.push(...dbRows)` — the
raw rows carry no `_score`. -/
def mergedFull (cands : List Candidate) (rows : List Row) : List MergedHit :=
  let m := merge cands rows
  if m.isEmpty && !rows.isEmpty then rows.map (fun r => .fromRow r none)
  else m

/-! ## Budget filter and shortlist (route.ts lines 562–574) -/

/-- Field `price_min` of a merged entry. -/
def hitPriceMin : MergedHit → Option ℚ
  | .fromRow r _ => r.price_min
  | .fromCandidate c => c.price_min

/-- Field `min_price` of a merged entry. -/
def hitMinPrice : MergedHit → Option ℚ
  | .fromRow r _ => r.min_price
  | .fromCandidate c => c.min_price

/-- Field `price_from` of a merged entry. -/
def hitPriceFrom : MergedHit → Option ℚ
  | .fromRow r _ => r.price_from
  | .fromCandidate c => c.price_from

/-- Field `price_max` of a merged entry. -/
def hitPriceMax : MergedHit → Option ℚ
  | .fromRow r _ => r.price_max
  | .fromCandidate c => c.price_max

/-- Field `max_price` of a merged entry. -/
def hitMaxPrice : MergedHit → Option ℚ
  | .fromRow r _ => r.max_price
  | .fromCandidate c => c.max_price

/-- Field `price_to` of a merged entry. -/
def hitPriceTo : MergedHit → Option ℚ
  | .fromRow r _ => r.price_to
  | .fromCandidate c => c.price_to

/-- Effective lower bound `Number(v.price_min ?? v.min_price ?? v.price_from ?? 0) || 0`
(route.ts 565): the first present lower-bound field, defaulting to 0. -/
def effMn (v : MergedHit) : ℚ :=
  (hitPriceMin v <|> hitMinPrice v <|> hitPriceFrom v).getD 0

/-- Effective upper bound `Number(v.price_max ?? v.max_price ?? v.price_to ?? 0) || 0`
(route.ts 566): the first present upper-bound field, defaulting to 0. -/
def effMx (v : MergedHit) : ℚ :=
  (hitPriceMax v <|> hitMaxPrice v <|> hitPriceTo v).getD 0

/-- The budget-filter predicate (route.ts 564–572), with the source's JS
truthiness tests on `mn` and `mx` (a zero bound is falsy). -/
def budgetKeep (b : ℚ) (v : MergedHit) : Bool :=
  let mn := effMn v
  let mx := effMx v
  if mn = 0 ∧ mx = 0 then true
  else if mn ≠ 0 ∧ mx ≠ 0 then decide (mn ≤ b ∧ b ≤ mx)
  else if mn ≠ 0 ∧ mx = 0 then decide (mn ≤ b)
  else if mn = 0 ∧ mx ≠ 0 then decide (b ≤ mx)
  else true

/-- The shortlist of the budget branch (route.ts 564–574):
`(filtered.length ? filtered : merged).slice(0, 6)`. -/
def shortlist (b : ℚ) (merged : List MergedHit) : List MergedHit :=
  let filtered := merged.filter (budgetKeep b)
  (if filtered.length ≠ 0 then filtered else merged).take 6

/-- Modelled from the spec (claim statement): the budget-filter rule as the
specification words it, reading presence of a bound as the field being
present at all — keep when no bound is present; when both are present keep
iff the budget lies in `[mn, mx]`; with a single present bound keep iff
the budget satisfies it. Compared against `budgetKeep` to settle the
refinement. -/
def keepSpecPresence (mn mx : Option ℚ) (b : ℚ) : Bool :=
  match mn, mx with
  | none, none => true
  | some a, some c => decide (a ≤ b ∧ b ≤ c)
  | some a, none => decide (a ≤ b)
  | none, some c => decide (b ≤ c)

/-- A bound counted as present only when the effective value is nonzero —
the reading of "present" that the source's truthiness tests implement. -/
def presentBound (x : ℚ) : Option ℚ := if x = 0 then none else some x

/-! ## Result normalizer (route.ts lines 131–147) -/

/-- A JSON-like value: the duck-typed inputs `normalizeVectorResults` may
receive from the vector-search collaborator. -/
inductive JVal where
  | null
  | bool (b : Bool)
  | num (q : ℚ)
  | str (s : String)
  | arr (xs : List JVal)
  | obj (fields : List (String × JVal))

/-- Property access `v.k`: defined only on objects, later duplicate keys
shadowing earlier ones; `none` models `undefined`. -/
def jgetField : JVal → String → Option JVal
  | .obj fs, k => fs.foldl (fun acc p => if p.1 = k then some p.2 else acc) none
  | _, _ => none

/-- JS falsiness of a value (`!result`). -/
def jsFalsy : JVal → Bool
  | .null => true
  | .bool b => !b
  | .num q => decide (q = 0)
  | .str s => decide (s = "")
  | .arr _ => false
  | .obj _ => false

/-- Model of the `Array.isArray` refinement of a possibly-absent value. -/
def asArr : Option JVal → Option (List JVal)
  | some (.arr xs) => some xs
  | _ => none

/-- JS `a ?? b` on possibly-absent values: `b` when `a` is absent or null. -/
def jsCoalesce (a b : Option JVal) : Option JVal :=
  match a with
  | some .null => b
  | none => b
  | some v => some v

/-- Spreadable fields of a value: an object contributes its fields; null,
booleans and numbers contribute none (string index properties are not
modelled). -/
def spreadFields : JVal → List (String × JVal)
  | .obj fs => fs
  | _ => []

/-- A possibly-undefined property value written into an object literal
(an absent value appears as `undefined`, modelled by `null`). -/
def jvalOrNull (o : Option JVal) : JVal := o.getD .null

/-- The per-item mapping of the `matches` branch (route.ts 136):
`{ ...(m.metadata ?? {}), _score: m.score ?? m.similarity, _id: m.id }`. -/
def normMatchItem (m : JVal) : JVal :=
  .obj (spreadFields (jvalOrNull (jsCoalesce (jgetField m "metadata")
          (some (.obj [])))) ++
    [("_score", jvalOrNull (jsCoalesce (jgetField m "score")
        (jgetField m "similarity"))),
     ("_id", jvalOrNull (jgetField m "id"))])

/-- The per-item mapping of the `hits` branch (route.ts 139):
`{ ...(h.document ?? h.payload ?? h.metadata ?? h), _score: h.score ?? h._score, _id: h.id }`. -/
def normHitItem (h : JVal) : JVal :=
  .obj (spreadFields (jvalOrNull (jsCoalesce (jgetField h "document")
          (jsCoalesce (jgetField h "payload")
            (jsCoalesce (jgetField h "metadata") (some h))))) ++
    [("_score", jvalOrNull (jsCoalesce (jgetField h "score")
        (jgetField h "_score"))),
     ("_id", jvalOrNull (jgetField h "id"))])

/-- Normalizer `normalizeVectorResults` (route.ts 131–147): the guard cascade in
source order — falsy input, top-level array, `matches`, `hits`,
`data?.matches`, `results`, and the final `return []`. The body never
recurses and absorbs every shape, so totality is by construction. -/
def normalizeVectorResults (result : JVal) : List JVal :=
  if jsFalsy result then []
  else
    match result with
    | .arr xs => xs
    | _ =>
      match asArr (jgetField result "matches") with
      | some ms => ms.map normMatchItem
      | none =>
        match asArr (jgetField result "hits") with
        | some hs => hs.map normHitItem
        | none =>
          match asArr ((jgetField result "data").bind
              (fun d => jgetField d "matches")) with
          | some dm => dm
          | none =>
            match asArr (jgetField result "results") with
            | some rs => rs
            | none => []

/-- Does the input carry any of the recognized array-bearing shapes (a
top-level array, or an array under `matches`, `hits`, `data.matches`, or
`results`)? -/
def hasRecognizedShape (v : JVal) : Bool :=
  (match v with
   | .arr _ => true
   | _ => false) ||
  (asArr (jgetField v "matches")).isSome ||
  (asArr (jgetField v "hits")).isSome ||
  (asArr ((jgetField v "data").bind (fun d => jgetField d "matches"))).isSome ||
  (asArr (jgetField v "results")).isSome

/-! ## Stream events and the vendor-mode executor (route.ts 241–248, 640–646) -/

/-- The typed segments written to the UI message stream. -/
inductive StreamEvent where
  | start
  | textStart (id : String)
  | textDelta (id : String) (delta : String)
  | textEnd (id : String)
  | finish
deriving DecidableEq, Repr

/-- The text-segment id of the vendor-mode stream (route.ts 243). -/
def vendorTextId : String := "vendor-response"

/-- The apology fragment of the vendor-mode catch block (route.ts 642). -/
def apologyMsg : String := "Something went wrong while fetching vendors."

/-- The apology event the catch block writes. -/
def apologyEvent : StreamEvent := .textDelta vendorTextId apologyMsg

/-- The vendor-mode stream executor (route.ts 242–246 and 640–646):
`start` and `text-start` are written up front; the dispatched sub-flow
writes `flowEvents` (ending in its own `text-end`/`finish` on a successful
early return); when it throws (`threw`), the catch block writes the
apology; the `finally` block writes `text-end` and `finish` on every
path. -/
def runVendorStream (flowEvents : List StreamEvent) (threw : Bool) :
    List StreamEvent :=
  [.start, .textStart vendorTextId] ++ flowEvents ++
    (if threw then [apologyEvent] else []) ++
    [.textEnd vendorTextId, .finish]

/-- The clarifying question of the generic flow (route.ts 497). -/
def clarifyMsg : String :=
  "Okay — any category, budget, neighbourhood, or style to narrow it down?"

/-- The generic-search flow head (route.ts 493–517): when the utterance is
not specific enough the flow writes the clarifying question, closes the
text segment and finishes — returning before any vector or relational
lookup; otherwise it proceeds into the search pipeline, whose events
(dependent on the collaborators' responses) are the parameter
`searchEvents`. The boolean records whether the vector search / relational
store is reached. -/
def genericFlowEvents (t : String) (searchEvents : List StreamEvent) :
    List StreamEvent × Bool :=
  if looksSpecific t = false then
    ([.textDelta vendorTextId clarifyMsg, .textEnd vendorTextId, .finish],
      false)
  else (searchEvents, true)

/-! ## Concrete records used by the examples and witnesses -/

/-- Candidate B of the rank-order example, ranked first. -/
def candB : Candidate := { id := some "B", scoreU := some 2 }

/-- Candidate A of the rank-order example, ranked second. -/
def candA : Candidate := { id := some "A", scoreU := some 1 }

/-- Candidate C of the rank-order example, ranked third. -/
def candC : Candidate := { id := some "C", scoreU := some 3 }

/-- Relational row A of the rank-order example. -/
def rowA : Row := { id := "A", name := some "Vendor A" }

/-- Relational row B of the rank-order example. -/
def rowB : Row := { id := "B", name := some "Vendor B" }

/-- Relational row C of the rank-order example. -/
def rowC : Row := { id := "C", name := some "Vendor C" }

/-- A merged record with `price_min = 40000` and `price_max = 60000`. -/
def hitBand : MergedHit :=
  .fromRow { id := "band", price_min := some 40000, price_max := some 60000 }
    none

/-- A merged record with no price fields at all. -/
def hitNoPrice : MergedHit := .fromRow { id := "bare" } none

/-- A merged record with both price bounds present but `price_max = 0`:
the source's truthiness test reads the upper bound as absent. -/
def hitZeroMax : MergedHit :=
  .fromRow { id := "zmax", price_min := some 40000, price_max := some 0 } none

/-! ## Shared helper lemmas -/

/-- A push-append fold is a map. -/
theorem foldl_push_eq_map {α β : Type} (f : α → β) :
    ∀ (l : List α) (acc : List β),
      l.foldl (fun a v => a ++ [f v]) acc = acc ++ l.map f := by
  intro l
  induction l with
  | nil => intro acc; simp
  | cons x xs ih => intro acc; simp [List.foldl, ih]

/-- The merge loop, stated declaratively: one entry per candidate, in the
candidates' order. -/
theorem merge_eq_map (cands : List Candidate) (rows : List Row) :
    merge cands rows = cands.map (mergeEntry rows) := by
  simpa [merge] using foldl_push_eq_map (mergeEntry rows) cands []

/-- A digit-free character list makes the first-digit search fail. -/
theorem splitAtFirstDigit_eq_none (l : List Char)
    (h : l.any isDigitChar = false) : splitAtFirstDigit l = none := by
  induction l with
  | nil => rfl
  | cons c cs ih =>
    simp only [List.any_cons, Bool.or_eq_false_iff] at h
    simp [splitAtFirstDigit, h.1, ih h.2]

/-- A character list holding a digit makes the first-digit search succeed. -/
theorem splitAtFirstDigit_isSome (l : List Char)
    (h : l.any isDigitChar = true) : (splitAtFirstDigit l).isSome = true := by
  induction l with
  | nil => simp at h
  | cons c cs ih =>
    by_cases hc : isDigitChar c = true
    · simp [splitAtFirstDigit, hc]
    · simp only [List.any_cons, Bool.or_eq_true] at h
      rcases h with h | h
      · exact absurd h hc
      · simp [splitAtFirstDigit, Bool.eq_false_iff.mpr hc, ih h]

/-! ## Claim theorems -/

/-- C1: in the generic vendor-search flow with a parsed budget, the emitted
shortlist holds at most 6 records; when the budget filter removed every
record the shortlist is the first 6 records of the unfiltered merged list;
and the shortlist is empty exactly when the merged list itself is empty. -/
theorem shortlist_bound_and_fallback (b : ℚ) (merged : List MergedHit) :
    (shortlist b merged).length ≤ 6 ∧
    (merged.filter (budgetKeep b) = [] →
      shortlist b merged = merged.take 6) ∧
    (shortlist b merged = [] ↔ merged = []) := by
  refine ⟨?_, ?_, ?_, ?_⟩
  · simp only [shortlist]
    split <;> (rw [List.length_take]; exact min_le_left _ _)
  · intro h
    simp [shortlist, h]
  · intro h
    by_contra hm
    cases hf : merged.filter (budgetKeep b) with
    | nil =>
      simp [shortlist, hf] at h
      exact hm h
    | cons x xs =>
      simp [shortlist, hf] at h
  · intro h
    subst h
    rfl

/-- Witness for C1 at a concrete input: a single merged record whose price
band excludes the budget 7, so the filter empties the list and the
shortlist falls back to the unfiltered head. -/
theorem shortlist_fallback_witness :
    shortlist 7 [hitBand] = List.take 6 [hitBand] :=
  (shortlist_bound_and_fallback 7 [hitBand]).2.1 (by decide)

/-- C2 counterexample: a merged record with both `price_min = 40000` and
`price_max = 0` present is kept by the code's budget filter at budget
50000, although the claim's rule for two present bounds
(`price_min ≤ budget ≤ price_max`) rejects it — the code's truthiness test
treats the zero bound as absent. -/
theorem budget_filter_zero_bound_counterexample :
    hitPriceMin hitZeroMax = some 40000 ∧
    hitPriceMax hitZeroMax = some 0 ∧
    budgetKeep 50000 hitZeroMax = true ∧
    keepSpecPresence (some 40000) (some 0) 50000 = false ∧
    ¬((40000 : ℚ) ≤ 50000 ∧ (50000 : ℚ) ≤ 0) := by
  refine ⟨rfl, rfl, by decide, by decide, by decide⟩

/-- C2 amended: the budget filter keeps a record according to the claimed
no-bound / both-bounds / single-bound rule, where a bound counts as
present only when its effective numeric value (the first present of the
`price_min`/`min_price`/`price_from`, resp. `price_max`/`max_price`/
`price_to` chain, defaulted to 0) is nonzero; in particular a record with
`price_min = 40000, price_max = 60000` is kept at budget 50000 and dropped
at 70000, and a record with no price fields is always kept. -/
theorem budget_filter_truthy_presence :
    (∀ (v : MergedHit) (b : ℚ),
        budgetKeep b v =
          keepSpecPresence (presentBound (effMn v)) (presentBound (effMx v))
            b) ∧
    budgetKeep 50000 hitBand = true ∧
    budgetKeep 70000 hitBand = false ∧
    (∀ b : ℚ, budgetKeep b hitNoPrice = true) := by
  refine ⟨?_, by decide, by decide, fun b => rfl⟩
  intro v b
  by_cases h1 : effMn v = 0 <;> by_cases h2 : effMx v = 0 <;>
    simp [budgetKeep, keepSpecPresence, presentBound, h1, h2]

/-- C3: the merge engine walks the vector list in its original rank order,
emitting exactly one entry per candidate — the matching relational row
overlaid with the candidate's score when the identifier resolves, the
candidate itself otherwise; for vector order [B, A, C] with relational
rows for A, B and C the merged list is [B, A, C]. -/
theorem merge_preserves_rank_order :
    (∀ (cands : List Candidate) (rows : List Row),
        merge cands rows = cands.map (mergeEntry rows) ∧
        (merge cands rows).length = cands.length) ∧
    merge [candB, candA, candC] [rowA, rowB, rowC] =
      [.fromRow rowB (some 2), .fromRow rowA (some 1),
        .fromRow rowC (some 3)] := by
  refine ⟨fun cands rows => ⟨merge_eq_map cands rows, ?_⟩, by decide⟩
  rw [merge_eq_map]
  exact List.length_map cands (mergeEntry rows)

/-- C4: with a non-empty vector list the merged list (after the fallback
step) is the rank-ordered merge itself, so its length is bounded by the
vector result count; the fallback emitting relational rows in their own
query order fires only when the vector list produced zero usable
records. -/
theorem merged_respects_vector_count (cands : List Candidate)
    (rows : List Row) :
    (cands ≠ [] →
      (mergedFull cands rows).length ≤ cands.length ∧
      mergedFull cands rows = merge cands rows) ∧
    (cands = [] →
      mergedFull cands rows = rows.map (fun r => MergedHit.fromRow r none)) := by
  constructor
  · intro h
    have hm : mergedFull cands rows = merge cands rows := by
      cases hc : cands with
      | nil => exact absurd hc h
      | cons x xs =>
        simp [mergedFull, merge_eq_map]
    refine ⟨?_, hm⟩
    rw [hm, merge_eq_map, List.length_map]
  · intro h
    subst h
    cases rows with
    | nil => rfl
    | cons r rs => simp [mergedFull, merge]

/-- Witness for C4 at a concrete input: one vector candidate and no
relational rows. -/
theorem merged_count_witness :
    (mergedFull [candB] []).length ≤ ([candB] : List Candidate).length ∧
    mergedFull [candB] [] = merge [candB] [] :=
  (merged_respects_vector_count [candB] []).1 (by decide)

/-- C5: the result normalizer is total by construction over every
JSON-like value — it always returns a list — and any input carrying none
of the recognized array-bearing shapes (top-level array, `matches`,
`hits`, `data.matches`, `results`) normalizes to the empty list; in
particular null, a number, a malformed string and the empty object all
yield `[]`. -/
theorem normalizer_total_default_empty :
    (∀ v : JVal, hasRecognizedShape v = false →
      normalizeVectorResults v = []) ∧
    normalizeVectorResults .null = [] ∧
    normalizeVectorResults (.obj []) = [] ∧
    normalizeVectorResults (.num 3) = [] ∧
    normalizeVectorResults (.str "junk") = [] := by
  refine ⟨?_, rfl, rfl, ?_, ?_⟩
  · intro v h
    cases v with
    | null => rfl
    | bool b => cases b <;> rfl
    | num q =>
      by_cases hq : q = 0 <;>
        simp [normalizeVectorResults, jsFalsy, hq, jgetField, asArr]
    | str s =>
      by_cases hs : s = "" <;>
        simp [normalizeVectorResults, jsFalsy, hs, jgetField, asArr]
    | arr xs => simp [hasRecognizedShape] at h
    | obj fs =>
      simp only [hasRecognizedShape, Bool.or_eq_false_iff] at h
      obtain ⟨⟨⟨⟨-, h1⟩, h2⟩, h3⟩, h4⟩ := h
      have e1 : asArr (jgetField (JVal.obj fs) "matches") = none := by
        cases hx : asArr (jgetField (JVal.obj fs) "matches") with
        | none => rfl
        | some xs => rw [hx] at h1; simp at h1
      have e2 : asArr (jgetField (JVal.obj fs) "hits") = none := by
        cases hx : asArr (jgetField (JVal.obj fs) "hits") with
        | none => rfl
        | some xs => rw [hx] at h2; simp at h2
      have e3 : asArr ((jgetField (JVal.obj fs) "data").bind
          (fun d => jgetField d "matches")) = none := by
        cases hx : asArr ((jgetField (JVal.obj fs) "data").bind
            (fun d => jgetField d "matches")) with
        | none => rfl
        | some xs => rw [hx] at h3; simp at h3
      have e4 : asArr (jgetField (JVal.obj fs) "results") = none := by
        cases hx : asArr (jgetField (JVal.obj fs) "results") with
        | none => rfl
        | some xs => rw [hx] at h4; simp at h4
      simp [normalizeVectorResults, jsFalsy, e1, e2, e3, e4]
  · simp [normalizeVectorResults, jsFalsy, jgetField, asArr]
  · simp [normalizeVectorResults, jsFalsy, jgetField, asArr]

/-- Witness for C5 at a concrete input: an object of unrecognized shape
normalizes to the empty list. -/
theorem normalizer_default_witness :
    normalizeVectorResults (JVal.obj [("foo", JVal.num 1)]) = [] :=
  normalizer_total_default_empty.1 (JVal.obj [("foo", JVal.num 1)])
    (by rfl)

/-- C6: vendor sub-intent dispatch checks guide, more-details, reviews and
generic-search in that order with the first match winning; in particular
any utterance matching the guide pattern — whether or not it also matches
the more-details pattern — dispatches to the guide flow. -/
theorem dispatch_precedence (t : String) :
    (isGuideQuery t = true → dispatchVendorIntent t = .guide) ∧
    (isGuideQuery t = false → isMoreDetailsQuery t = true →
      dispatchVendorIntent t = .moreDetails) ∧
    (isGuideQuery t = false → isMoreDetailsQuery t = false →
      isReviewsQuery t = true → dispatchVendorIntent t = .reviews) ∧
    (isGuideQuery t = false → isMoreDetailsQuery t = false →
      isReviewsQuery t = false →
      dispatchVendorIntent t = .genericSearch) := by
  refine ⟨fun hg => ?_, fun hg hm => ?_, fun hg hm hr => ?_,
    fun hg hm hr => ?_⟩
  · simp [dispatchVendorIntent, hg]
  · simp [dispatchVendorIntent, hg, hm]
  · simp [dispatchVendorIntent, hg, hm, hr]
  · simp [dispatchVendorIntent, hg, hm, hr]

/-- Witness for C6 at a concrete utterance matching both the guide and the
more-details patterns: the dispatcher sends it to the guide flow. -/
theorem dispatch_guide_precedence_witness :
    isGuideQuery "tell me more about the best caterers" = true ∧
    isMoreDetailsQuery "tell me more about the best caterers" = true ∧
    dispatchVendorIntent "tell me more about the best caterers" =
      VendorIntent.guide :=
  ⟨by decide, by decide,
    (dispatch_precedence "tell me more about the best caterers").1
      (by decide)⟩

/-- C7: `parseBudget` maps "5 lakh" to 500000, "₹50000" to 50000 and
"hello" to nothing; it works from the first numeric token, a lakh-family
unit multiplies the number by 100000 (also for "2 lakhs" and "3 lacs"),
a text with no numeric token gives nothing, and a first token whose
number fails to parse (as in "5..") gives nothing. -/
theorem parseBudget_examples_and_failure :
    parseBudget "5 lakh" = some 500000 ∧
    parseBudget "₹50000" = some 50000 ∧
    parseBudget "hello" = none ∧
    (∀ t : String, hasDigit t = false → parseBudget t = none) ∧
    parseBudget "2 lakhs" = some 200000 ∧
    parseBudget "3 lacs" = some 300000 ∧
    parseBudget "5.." = none := by
  refine ⟨by decide, by decide, by decide, ?_, by decide, by decide,
    by decide⟩
  intro t h
  have hs : splitAtFirstDigit (toLowerChars t) = none :=
    splitAtFirstDigit_eq_none _ h
  simp [parseBudget, hs]

/-- Witness for C7 at a concrete digit-free input. -/
theorem parseBudget_no_digit_witness :
    parseBudget "no numbers here" = none :=
  parseBudget_examples_and_failure.2.2.2.1 "no numbers here" (by decide)

/-- C8: whatever events a vendor sub-flow wrote before returning or
throwing, the vendor-mode stream opens with `start` and `text-start` and
the `finally` block closes it with `text-end` and `finish`; when the
sub-flow threw, the catch block's user-visible apology fragment appears in
between — no path leaves the stream unterminated. -/
theorem vendor_stream_terminates (flowEvents : List StreamEvent)
    (threw : Bool) :
    ∃ mid : List StreamEvent,
      runVendorStream flowEvents threw =
        [.start, .textStart vendorTextId] ++ mid ++
          [.textEnd vendorTextId, .finish] ∧
      (threw = true → apologyEvent ∈ mid) := by
  refine ⟨flowEvents ++ (if threw then [apologyEvent] else []), ?_, ?_⟩
  · simp [runVendorStream, List.append_assoc]
  · intro h
    simp [h]

/-- Witness for C8 at a concrete input: a sub-flow that threw after
writing nothing still yields a stream that opens and closes properly and
carries the apology. -/
theorem vendor_stream_terminates_witness :
    ∃ mid : List StreamEvent,
      runVendorStream [] true =
        [.start, .textStart vendorTextId] ++ mid ++
          [.textEnd vendorTextId, .finish] ∧
      (true = true → apologyEvent ∈ mid) :=
  vendor_stream_terminates [] true

/-- C9: an utterance reaching the generic vendor-search flow with no
parsed budget, no parsed category and none of the fixed Mumbai
neighbourhood names gets exactly the clarifying question followed by
`text-end` and `finish`, and the flow never reaches the vector search or
the relational store — whatever the search pipeline would have emitted. -/
theorem generic_flow_clarifies_when_unspecific (t : String)
    (searchEvents : List StreamEvent)
    (hb : parseBudget t = none) (hc : parseCategory t = none)
    (hn : hasNeighbourhood t = false) :
    genericFlowEvents t searchEvents =
      ([.textDelta vendorTextId clarifyMsg, .textEnd vendorTextId,
        .finish], false) := by
  have hl : looksSpecific t = false := by
    simp [looksSpecific, jsTruthyNum, jsTruthyStr, hb, hc, hn]
  simp [genericFlowEvents, hl]

/-- Witness for C9 at a concrete vague utterance. -/
theorem generic_clarify_witness :
    genericFlowEvents "wedding planning help please" [] =
      ([.textDelta vendorTextId clarifyMsg, .textEnd vendorTextId,
        .finish], false) :=
  generic_flow_clarifies_when_unspecific "wedding planning help please" []
    (by decide) (by decide) (by decide)

/-- C10 counterexample: the text "1..2" contains a decimal digit, yet
`parseBudget` returns nothing — the first numeric token "1..2" holds two
dots, so the number fails to parse. -/
theorem parseBudget_digit_counterexample :
    hasDigit "1..2" = true ∧ parseBudget "1..2" = none := by
  exact ⟨by decide, by decide⟩

/-- C10 amended: for every input text containing a decimal digit whose
first numeric token (after comma removal) holds at most one dot,
`parseBudget` returns a number — the unit suffix being optional —
so "top 5 caterers" yields the budget 5, which is truthy and therefore
selects the budget-filter branch of the generic search flow. -/
theorem parseBudget_digit_mostly_succeeds :
    (∀ t : String, hasDigit t = true →
      ((firstNumTokenNoCommas t).filter (fun c => c = '.')).length ≤ 1 →
      (parseBudget t).isSome = true) ∧
    parseBudget "top 5 caterers" = some 5 ∧
    looksSpecific "top 5 caterers" = true ∧
    searchBudget "top 5 caterers" = some 5 := by
  refine ⟨?_, by decide, by decide, by decide⟩
  intro t ht hdots
  have hs : (splitAtFirstDigit (toLowerChars t)).isSome = true :=
    splitAtFirstDigit_isSome _ ht
  cases hx : splitAtFirstDigit (toLowerChars t) with
  | none => rw [hx] at hs; simp at hs
  | some suf =>
    have htok : firstNumTokenNoCommas t =
        (suf.takeWhile isNumTokChar).filter (fun c => c ≠ ',') := by
      simp [firstNumTokenNoCommas, hx]
    rw [htok] at hdots
    simp only [parseBudget, hx]
    rw [if_neg (by omega)]
    split <;> rfl

/-- Witness for C10's amended statement at a concrete input with a digit
and a well-formed first token. -/
theorem parseBudget_first_token_witness :
    (parseBudget "9 something").isSome = true :=
  parseBudget_digit_mostly_succeeds.1 "9 something" (by decide) (by decide)

end Vivaah
